import Mathlib

/-!
Verification development for the image-sequence → MP4/GIF converter
(`img_seq_converter2.py`, with `image_seq_converter.py` and
`img_seq_converter3.py` as near-duplicates).

The pure parts of the program (decimal frame numbering, path handling,
staging destinations, ffmpeg argument-vector construction) are embedded as
executable Lean functions; the stateful run lifecycle (`start_conversion`,
`run_ffmpeg`, `cancel_conversion`) is embedded as explicit state passing
over an `AppState` record, with the external effects that can fail (file
copies, process launch, process exit code, directory removal) supplied by
a `RunEnv` record.
-/

namespace ImgSeq

/-! ## Decimal formatting

Python renders the frame counter with `f"img{i:04d}"`: decimal digits of
`i`, left-padded with `'0'` to a minimum width of 4.  `decDigitsAux` is a
fuel-based (hence kernel-reducible) digit expansion; fuel `n` is always
enough for `n` itself since `n / 10 < n` for `n > 0`. -/

def digitChar (d : Nat) : Char := Char.ofNat (48 + d)

def decDigitsAux : Nat → Nat → List Char
  | 0, _ => []
  | fuel + 1, n => if n = 0 then [] else decDigitsAux fuel (n / 10) ++ [digitChar (n % 10)]

/-- Decimal representation of a natural number, as Python's `str`/`d` format. -/
def decRepr (n : Nat) : String := if n = 0 then "0" else String.mk (decDigitsAux n n)

/-- Python `f"{n:04d}"`: decimal digits left-padded with zeros to width ≥ 4. -/
def pad4 (n : Nat) : String :=
  String.mk (List.replicate (4 - (decRepr n).length) '0' ++ (decRepr n).data)

/-! ## String and path helpers (faithful to the Python library functions used) -/

/-- Python `str(i)` for an `int` value (used for fps and crf). -/
def pyIntStr (i : Int) : String :=
  if i < 0 then "-" ++ decRepr i.natAbs else decRepr i.toNat

def strStartsWithSlash (s : String) : Bool := s.data.head? = some '/'

def strEndsWithSlash (s : String) : Bool := s.data.getLast? = some '/'

/-- POSIX `os.path.join(a, b)`: if `b` is absolute the result is `b`; else
append `b` to `a`, inserting `"/"` unless `a` is empty or already ends in
a slash. -/
def osPathJoin (a b : String) : String :=
  if strStartsWithSlash b then b
  else if a = "" ∨ strEndsWithSlash a then a ++ b
  else a ++ "/" ++ b

def takeUntilSlash : List Char → List Char
  | [] => []
  | c :: cs => if c = '/' then [] else c :: takeUntilSlash cs

/-- `pathlib.Path(p).name`: the last nonempty `/`-separated component
(trailing slashes are ignored). -/
def pyName (p : String) : String :=
  String.mk (takeUntilSlash (p.data.reverse.dropWhile (fun c => c = '/'))).reverse

/-- `pathlib.Path(p).suffix`: the extension of the final component,
including the dot; empty when the last dot is the first or last character
of the name (so dotfiles and names without an extension give `""`). -/
def pySuffix (p : String) : String :=
  let rcs := (pyName p).data.reverse
  let j := rcs.indexOf '.'
  if j < rcs.length ∧ 1 ≤ j ∧ j + 2 ≤ rcs.length then
    String.mk (rcs.take (j + 1)).reverse
  else ""

/-- Python `str.strip()` restricted to ASCII whitespace (the only kind the
program's inputs contain). -/
def pyStrip (s : String) : String :=
  String.mk ((s.data.dropWhile Char.isWhitespace).reverse.dropWhile Char.isWhitespace).reverse

/-- Python `str.upper()` for ASCII strings. -/
def pyUpper (s : String) : String := String.mk (s.data.map Char.toUpper)

/-! ## Staging (`run_ffmpeg`, lines 247–255)

```
ext = Path(self.images[0]).suffix
for i, src in enumerate(self.images, start=1):
    dst = os.path.join(tmpdir, f"img{i:04d}{ext}")
    shutil.copy2(src, dst)
pattern = os.path.join(tmpdir, f"img%04d{ext}")
```
-/

/-- Destination file name of the frame numbered `i`: `f"img{i:04d}{ext}"`. -/
def stagedName (i : Nat) (ext : String) : String := "img" ++ pad4 i ++ ext

/-- The copy loop `for i, src in enumerate(images, start=i0)`: source paired
with its destination inside `tmpdir`. -/
def stageCopies (tmpdir ext : String) : Nat → List String → List (String × String)
  | _, [] => []
  | i, src :: rest =>
      (src, osPathJoin tmpdir (stagedName i ext)) :: stageCopies tmpdir ext (i + 1) rest

/-- Staging: extension taken from `images[0]` (an empty list would raise
`IndexError` in Python, modelled as `none`); returns the performed copies
and the printf-style input pattern. -/
def stage (tmpdir : String) (images : List String) :
    Option (List (String × String) × String) :=
  match images with
  | [] => none
  | img0 :: _ =>
      let ext := pySuffix img0
      some (stageCopies tmpdir ext 1 images, osPathJoin tmpdir ("img%04d" ++ ext))

/-! ## Command construction (`run_ffmpeg`, lines 256–284) -/

/-- Widget-backed option values read by `run_ffmpeg`:
`fps_var`, `format_var`, `codec_var`, `crf_var`, `scale_var`, `output_var`. -/
structure Opts where
  fps : Int
  format : String
  codec : String
  crf : Int
  scale : String
  output : String
deriving DecidableEq, Repr

/-- The unconditional tail of the GIF `-vf` chain. -/
def paletteFilter : String :=
  "split [a][b]; [a] palettegen=stats_mode=full [p]; [b][p] paletteuse=dither=floyd_steinberg"

/-- The optional leading scale step, `f"scale={scale}:-1:flags=lanczos"`. -/
def scaleFilter (scale : String) : String := "scale=" ++ scale ++ ":-1:flags=lanczos"

/-- `vf_parts` assembly: optional scale step (when the stripped scale entry
is nonempty), then the palette graph. -/
def gifVfParts (scaleRaw : String) : List String :=
  (if pyStrip scaleRaw = "" then [] else [scaleFilter (pyStrip scaleRaw)]) ++ [paletteFilter]

/-- `vf_str = ",".join(vf_parts)`. -/
def gifVf (scaleRaw : String) : String := String.intercalate "," (gifVfParts scaleRaw)

/-- The ffmpeg argument vector built by `run_ffmpeg` once staging produced
`pat`.  Branches on `self.format_var.get().upper() == "MP4"`. -/
def buildCmd (ffmpegPath pat : String) (o : Opts) : List String :=
  if pyUpper o.format = "MP4" then
    [ffmpegPath, "-y",
     "-framerate", pyIntStr o.fps,
     "-i", pat,
     "-c:v", o.codec,
     "-crf", pyIntStr o.crf,
     "-pix_fmt", "yuv420p",
     o.output]
  else
    [ffmpegPath, "-y",
     "-framerate", pyIntStr o.fps,
     "-i", pat,
     "-vf", gifVf o.scale,
     o.output]

/-! ## Run lifecycle (`start_conversion`, `run_ffmpeg`, `cancel_conversion`)

The GUI state relevant to the conversion pipeline: the ordered image list,
the option widgets, the enabled/disabled state of the Start and Cancel
buttons, and the resolved ffmpeg path.  Tkinter semantics: a click on a
disabled button does not invoke its command. -/

structure AppState where
  images : List String
  opts : Opts
  startEnabled : Bool
  cancelEnabled : Bool
  ffmpegPath : String
deriving DecidableEq, Repr

/-- External effects of one `run_ffmpeg` invocation that the program cannot
control: whether every `shutil.copy2` succeeds, whether `subprocess.Popen`
raises `FileNotFoundError`, the exit code `wait()` returns, whether
`shutil.rmtree` succeeds, and whether `cancel_conversion` terminated the
process while it ran. -/
structure RunEnv where
  copyOk : Bool
  launchOk : Bool
  exitCode : Int
  rmtreeOk : Bool
  cancelRequested : Bool
deriving DecidableEq, Repr

/-- Result of `start_conversion`: the two warning dialogs, or the run being
scheduled via `self.after(100, self.run_ffmpeg)`. -/
inductive StartResult
  | warnNoFiles
  | warnNoOutput
  | scheduled
deriving DecidableEq, Repr

/-- Terminal reports of `run_ffmpeg`: the success dialog (`rc == 0`), the
`"ffmpeg exited with code rc"` error dialog, the `FileNotFoundError`
dialog, or the generic exception dialog. -/
inductive RunOutcome
  | success
  | ffmpegError (rc : Int)
  | ffmpegNotFound
  | exceptionError
deriving DecidableEq, Repr

/-- Observable effects of one `run_ffmpeg` invocation. -/
structure RunReport where
  outcome : RunOutcome
  tmpdirCreated : Bool
  stagedCopies : List (String × String)
  launched : Option (List String)
  rmtreeAttempted : Bool
  tmpdirRemoved : Bool
deriving DecidableEq, Repr

/-- `start_conversion` (lines 230–244): warn and return unchanged when the
image list is empty or the stripped output entry is empty; otherwise
disable Start, enable Cancel, clear the log and schedule `run_ffmpeg`. -/
def start_conversion (s : AppState) : AppState × StartResult :=
  if s.images = [] then (s, .warnNoFiles)
  else if pyStrip s.opts.output = "" then (s, .warnNoOutput)
  else ({ s with startEnabled := false, cancelEnabled := true }, .scheduled)

/-- `run_ffmpeg` (lines 246–322).  `tmpdir` is the fresh directory returned
by `tempfile.mkdtemp`.  The `try` body stages, builds the command, launches
and waits; `except FileNotFoundError` and `except Exception` produce their
dialogs; the `finally` block always attempts `shutil.rmtree(tmpdir)`
(swallowing any error) and then re-enables Start and disables Cancel. -/
def run_ffmpeg (tmpdir : String) (s : AppState) (env : RunEnv) :
    AppState × RunReport :=
  let finalState : AppState := { s with startEnabled := true, cancelEnabled := false }
  match stage tmpdir s.images with
  | none =>
      (finalState,
        { outcome := .exceptionError, tmpdirCreated := true, stagedCopies := [],
          launched := none, rmtreeAttempted := true, tmpdirRemoved := env.rmtreeOk })
  | some (copies, pat) =>
      if env.copyOk = false then
        (finalState,
          { outcome := .exceptionError, tmpdirCreated := true, stagedCopies := [],
            launched := none, rmtreeAttempted := true, tmpdirRemoved := env.rmtreeOk })
      else
        let cmd := buildCmd s.ffmpegPath pat s.opts
        if env.launchOk = false then
          (finalState,
            { outcome := .ffmpegNotFound, tmpdirCreated := true, stagedCopies := copies,
              launched := none, rmtreeAttempted := true, tmpdirRemoved := env.rmtreeOk })
        else
          (finalState,
            { outcome := if env.exitCode = 0 then .success else .ffmpegError env.exitCode,
              tmpdirCreated := true, stagedCopies := copies, launched := some cmd,
              rmtreeAttempted := true, tmpdirRemoved := env.rmtreeOk })

/-- `cancel_conversion` (lines 324–332): `terminate()` is called exactly
when `self.ffmpeg_proc` is set and `poll()` is `None`; Start is re-enabled
and Cancel disabled unconditionally.  Returns whether termination was
requested. -/
def cancel_conversion (s : AppState) (procExists pollIsNone : Bool) :
    AppState × Bool :=
  ({ s with startEnabled := true, cancelEnabled := false }, procExists && pollIsNone)

/-- A click on the Start button: Tkinter only invokes the command of an
enabled button, so a click while `startEnabled = false` changes nothing. -/
def clickStart (s : AppState) : AppState × Option StartResult :=
  if s.startEnabled then
    let r := start_conversion s
    (r.1, some r.2)
  else (s, none)

/-- One full start request: `start_conversion`, then — only when the run
was scheduled — `run_ffmpeg`.  `mkdtemp` (and hence the temporary
directory) and `Popen` exist only inside `run_ffmpeg`, so a rejected start
produces no `RunReport`. -/
def startAndRun (s : AppState) (tmpdir : String) (env : RunEnv) :
    AppState × StartResult × Option RunReport :=
  match start_conversion s with
  | (s1, .scheduled) =>
      let r := run_ffmpeg tmpdir s1 env
      (r.1, .scheduled, some r.2)
  | (s1, res) => (s1, res, none)

/-! ## Proof-support definitions -/

/-- One step of reading a decimal digit string back into a number. -/
def decStep (a : Nat) (c : Char) : Nat := 10 * a + (c.toNat - 48)

/-- Numeric value of a decimal digit string (leading zeros contribute
nothing), used to show the padded frame numbers are pairwise distinct. -/
def decVal (cs : List Char) : Nat := cs.foldl decStep 0

/-! ## Concrete sample inputs -/

/-- Default MP4 options as the GUI presents them. -/
def opts0 : Opts :=
  { fps := 25, format := "MP4", codec := "libx264", crf := 18, scale := "", output := "out.mp4" }

/-- MP4 options whose quality value 52 lies outside 0–51. -/
def optsCrf52 : Opts :=
  { fps := 25, format := "MP4", codec := "libx264", crf := 52, scale := "", output := "out.mp4" }

/-- GIF options whose scale entry is not a number. -/
def optsScaleAbc : Opts :=
  { fps := 25, format := "GIF", codec := "libx264", crf := 18, scale := "abc", output := "out.gif" }

/-- GIF options with scale width 480. -/
def optsGif480 : Opts :=
  { fps := 25, format := "GIF", codec := "libx264", crf := 18, scale := "480", output := "out.gif" }

/-- Idle state with an empty image list. -/
def sEmpty : AppState :=
  { images := [], opts := opts0, startEnabled := true, cancelEnabled := false, ffmpegPath := "ffmpeg" }

/-- Idle state whose output entry is only whitespace. -/
def sBlank : AppState :=
  { images := ["a.png"],
    opts := { fps := 25, format := "MP4", codec := "libx264", crf := 18, scale := "", output := "   " },
    startEnabled := true, cancelEnabled := false, ffmpegPath := "ffmpeg" }

/-- State captured while a run is in flight: `start_conversion` disabled
Start and enabled Cancel before scheduling `run_ffmpeg`. -/
def sRunning : AppState :=
  { images := ["a.png", "b.png"], opts := opts0, startEnabled := false, cancelEnabled := true,
    ffmpegPath := "ffmpeg" }

/-- A second in-flight state (during the staging copy loop). -/
def sStaging : AppState :=
  { images := ["x.jpg"], opts := opts0, startEnabled := false, cancelEnabled := true,
    ffmpegPath := "ffmpeg" }

/-- In-flight state carrying the out-of-range quality options. -/
def sCrf52 : AppState :=
  { images := ["a.png"], opts := optsCrf52, startEnabled := false, cancelEnabled := true,
    ffmpegPath := "ffmpeg" }

/-- In-flight state carrying the non-numeric scale options. -/
def sScaleAbc : AppState :=
  { images := ["a.png"], opts := optsScaleAbc, startEnabled := false, cancelEnabled := true,
    ffmpegPath := "ffmpeg" }

/-- Environment where every external effect succeeds and ffmpeg exits 0. -/
def envOk : RunEnv :=
  { copyOk := true, launchOk := true, exitCode := 0, rmtreeOk := true, cancelRequested := false }

/-- Environment of a run that was cancelled but whose process still exited
with code 0 (`terminate()` raced with natural completion, or the child
handled the signal and exited cleanly). -/
def envCancelExit0 : RunEnv :=
  { copyOk := true, launchOk := true, exitCode := 0, rmtreeOk := true, cancelRequested := true }

/-! ## Helper lemmas -/

lemma string_data_append (a b : String) : (a ++ b).data = a.data ++ b.data := rfl

lemma digitChar_toNat (d : Nat) (h : d < 10) : (digitChar d).toNat = 48 + d := by
  interval_cases d <;> decide

lemma decDigitsAux_foldl (fuel : Nat) :
    ∀ n a, n ≤ fuel →
      (decDigitsAux fuel n).foldl decStep a = a * 10 ^ (decDigitsAux fuel n).length + n := by
  induction fuel with
  | zero =>
      intro n a h
      have hn : n = 0 := Nat.le_zero.mp h
      subst hn
      simp [decDigitsAux]
  | succ fuel ih =>
      intro n a h
      by_cases hn : n = 0
      · subst hn; simp [decDigitsAux]
      · have hpos : 0 < n := Nat.pos_of_ne_zero hn
        have hlt : n / 10 < n := Nat.div_lt_self hpos (by omega)
        have hfuel : n / 10 ≤ fuel := by omega
        have hmod : n % 10 < 10 := Nat.mod_lt _ (by omega)
        simp only [decDigitsAux, if_neg hn]
        rw [List.foldl_append, ih (n / 10) a hfuel]
        simp only [List.foldl, decStep, digitChar_toNat _ hmod, List.length_append,
          List.length_cons, List.length_nil, Nat.zero_add]
        have hsub : 48 + n % 10 - 48 = n % 10 := by omega
        rw [hsub, pow_succ]
        have hd : 10 * (n / 10) + n % 10 = n := by omega
        calc 10 * (a * 10 ^ (decDigitsAux fuel (n / 10)).length + n / 10) + n % 10
            = a * (10 ^ (decDigitsAux fuel (n / 10)).length * 10)
                + (10 * (n / 10) + n % 10) := by ring
          _ = a * (10 ^ (decDigitsAux fuel (n / 10)).length * 10) + n := by rw [hd]

lemma decVal_decRepr (n : Nat) : decVal (decRepr n).data = n := by
  by_cases hn : n = 0
  · subst hn; decide
  · simp only [decRepr, if_neg hn]
    have h := decDigitsAux_foldl n n 0 le_rfl
    simpa [decVal] using h

lemma foldl_replicate_zeros (k : Nat) : (List.replicate k '0').foldl decStep 0 = 0 := by
  induction k with
  | zero => rfl
  | succ k ih =>
      rw [List.replicate_succ, List.foldl_cons, show decStep 0 '0' = 0 from rfl]
      exact ih

lemma decVal_pad4 (n : Nat) : decVal (pad4 n).data = n := by
  show (List.replicate (4 - (decRepr n).length) '0' ++ (decRepr n).data).foldl decStep 0 = n
  rw [List.foldl_append, foldl_replicate_zeros]
  exact decVal_decRepr n

lemma pad4_data_inj {m n : Nat} (h : (pad4 m).data = (pad4 n).data) : m = n := by
  have hm := decVal_pad4 m
  rw [h, decVal_pad4] at hm
  omega

lemma stagedName_data (i : Nat) (e : String) :
    (stagedName i e).data = 'i' :: 'm' :: 'g' :: ((pad4 i).data ++ e.data) := rfl

lemma stagedName_data_inj {i j : Nat} {e : String}
    (h : (stagedName i e).data = (stagedName j e).data) : i = j := by
  rw [stagedName_data, stagedName_data] at h
  injection h with h1 h
  injection h with h2 h
  injection h with h3 h
  exact pad4_data_inj (List.append_cancel_right h)

lemma strStartsWithSlash_stagedName (i : Nat) (e : String) :
    strStartsWithSlash (stagedName i e) = false := by
  simp [strStartsWithSlash, stagedName_data]

lemma osPathJoin_eq_of_rel (t x : String) (h : strStartsWithSlash x = false) :
    osPathJoin t x = (if t = "" ∨ strEndsWithSlash t then t else t ++ "/") ++ x := by
  by_cases hc : t = "" ∨ strEndsWithSlash t <;> simp [osPathJoin, h, hc]

lemma osPathJoin_stagedName_inj {t e : String} {i j : Nat}
    (h : osPathJoin t (stagedName i e) = osPathJoin t (stagedName j e)) : i = j := by
  rw [osPathJoin_eq_of_rel t _ (strStartsWithSlash_stagedName i e),
      osPathJoin_eq_of_rel t _ (strStartsWithSlash_stagedName j e)] at h
  have h2 := congrArg String.data h
  rw [string_data_append, string_data_append] at h2
  exact stagedName_data_inj (List.append_cancel_left h2)

lemma stageCopies_length (t e : String) (i : Nat) (l : List String) :
    (stageCopies t e i l).length = l.length := by
  induction l generalizing i with
  | nil => rfl
  | cons a l ih => simp [stageCopies, ih]

lemma stageCopies_get? (t e : String) (l : List String) :
    ∀ i k : Nat, (stageCopies t e i l).get? k =
      (l.get? k).map fun src => (src, osPathJoin t (stagedName (i + k) e)) := by
  induction l with
  | nil => intro i k; simp [stageCopies]
  | cons a l ih =>
      intro i k
      cases k with
      | zero => simp [stageCopies]
      | succ k =>
          simp only [stageCopies, List.get?_cons_succ]
          rw [ih (i + 1) k, show i + 1 + k = i + (k + 1) from by omega]

lemma stageCopies_snd_map (t e : String) (l : List String) :
    ∀ i : Nat, (stageCopies t e i l).map Prod.snd =
      (List.range l.length).map fun k => osPathJoin t (stagedName (i + k) e) := by
  induction l with
  | nil => intro i; rfl
  | cons a l ih =>
      intro i
      simp only [stageCopies, List.map_cons, List.length_cons, List.range_succ_eq_map,
        List.map_map]
      rw [ih (i + 1)]
      refine congrArg₂ List.cons rfl ?_
      refine List.map_congr_left fun k hk => ?_
      simp only [Function.comp]
      rw [show i + 1 + k = i + (k + 1) from by omega]

lemma stageCopies_snd_nodup (t e : String) (l : List String) :
    ((stageCopies t e 1 l).map Prod.snd).Nodup := by
  rw [stageCopies_snd_map t e l 1]
  refine (List.nodup_range l.length).map fun a b hab => ?_
  have h := osPathJoin_stagedName_inj hab
  omega

lemma stage_cons (tmpdir img0 : String) (rest : List String) :
    stage tmpdir (img0 :: rest) =
      some (stageCopies tmpdir (pySuffix img0) 1 (img0 :: rest),
            osPathJoin tmpdir ("img%04d" ++ pySuffix img0)) := rfl

/-! ## Claim theorems -/

/-- C1: for every non-empty ordered list of images, staging produces
exactly `n` destination files (the destination names are pairwise
distinct), the `i`-th input (1-based) is copied to
`img<i zero-padded to width 4>` with the extension taken from the first
entry and reused for every staged file, and the returned input pattern is
the directory joined with `img%04d<that extension>`; the numbering follows
input order. -/
theorem c1_stage_layout (tmpdir img0 : String) (rest : List String) :
    ∃ copies pat,
      stage tmpdir (img0 :: rest) = some (copies, pat) ∧
      copies.length = (img0 :: rest).length ∧
      (∀ i : Nat, copies.get? i =
        ((img0 :: rest).get? i).map
          (fun src => (src, osPathJoin tmpdir (stagedName (i + 1) (pySuffix img0))))) ∧
      (copies.map Prod.snd).Nodup ∧
      pat = osPathJoin tmpdir ("img%04d" ++ pySuffix img0) := by
  refine ⟨_, _, stage_cons tmpdir img0 rest, stageCopies_length _ _ _ _, ?_,
    stageCopies_snd_nodup _ _ _, rfl⟩
  intro i
  rw [stageCopies_get? tmpdir (pySuffix img0) (img0 :: rest) 1 i,
    show 1 + i = i + 1 from by omega]

/-- C7: for every MP4 conversion, the built argument vector is exactly the
encoder executable followed by `-y`, `-framerate N`, `-i pattern`,
`-c:v codec`, `-crf q`, `-pix_fmt yuv420p`, and the output path, in that
order. -/
theorem c7_mp4_argv (ffmpegPath pat : String) (o : Opts) (h : o.format = "MP4") :
    buildCmd ffmpegPath pat o =
      [ffmpegPath, "-y", "-framerate", pyIntStr o.fps, "-i", pat, "-c:v", o.codec,
       "-crf", pyIntStr o.crf, "-pix_fmt", "yuv420p", o.output] := by
  simp [buildCmd, h, show pyUpper "MP4" = "MP4" from rfl]

/-- C7 witness: the default MP4 options produce the documented vector. -/
theorem c7_mp4_argv_witness :
    buildCmd "ffmpeg" "/t/img%04d.png" opts0 =
      ["ffmpeg", "-y", "-framerate", "25", "-i", "/t/img%04d.png", "-c:v", "libx264",
       "-crf", "18", "-pix_fmt", "yuv420p", "out.mp4"] := by
  rw [c7_mp4_argv "ffmpeg" "/t/img%04d.png" opts0 rfl]
  decide

/-- C8: for every GIF conversion the argument vector carries a `-vf`
filter chain that always ends with the two-pass
`split`/`palettegen=stats_mode=full`/`paletteuse=dither=floyd_steinberg`
graph; when a scale width is supplied (stripped scale entry nonempty) the
chain begins with `scale=W:-1:flags=lanczos` followed by a comma, and when
none is supplied the scale step is omitted entirely. -/
theorem c8_gif_filter (ffmpegPath pat : String) (o : Opts) (h : o.format = "GIF") :
    buildCmd ffmpegPath pat o =
      [ffmpegPath, "-y", "-framerate", pyIntStr o.fps, "-i", pat, "-vf",
       gifVf o.scale, o.output] ∧
    (pyStrip o.scale = "" → gifVf o.scale = paletteFilter) ∧
    (pyStrip o.scale ≠ "" →
      gifVf o.scale = scaleFilter (pyStrip o.scale) ++ "," ++ paletteFilter) := by
  refine ⟨?_, ?_, ?_⟩
  · simp [buildCmd, h, show pyUpper "GIF" = "GIF" from rfl]
  · intro hs
    simp only [gifVf, gifVfParts, if_pos hs, List.nil_append]
    rfl
  · intro hs
    simp only [gifVf, gifVfParts, if_neg hs, List.cons_append, List.nil_append]
    rfl

/-- C8 witness: scale width 480 yields the documented chain. -/
theorem c8_gif_filter_witness :
    buildCmd "ffmpeg" "/t/img%04d.png" optsGif480 =
      ["ffmpeg", "-y", "-framerate", "25", "-i", "/t/img%04d.png", "-vf",
       "scale=480:-1:flags=lanczos,split [a][b]; [a] palettegen=stats_mode=full [p]; [b][p] paletteuse=dither=floyd_steinberg",
       "out.gif"] := by
  rw [(c8_gif_filter "ffmpeg" "/t/img%04d.png" optsGif480 rfl).1]
  decide

/-- C2: for every run that reaches a terminal outcome (success, non-zero
encoder exit, launch failure, or an exception during staging or running),
the `finally` block attempts deletion of the temporary staging directory —
the directory is removed exactly when `shutil.rmtree` succeeds — before the
buttons return to the idle configuration, and a failure of that deletion
never changes the run's reported outcome. -/
theorem c2_cleanup (tmpdir : String) (s : AppState) (env : RunEnv) :
    (run_ffmpeg tmpdir s env).2.rmtreeAttempted = true ∧
    (run_ffmpeg tmpdir s env).2.tmpdirRemoved = env.rmtreeOk ∧
    (run_ffmpeg tmpdir s env).1.startEnabled = true ∧
    (run_ffmpeg tmpdir s env).1.cancelEnabled = false ∧
    (run_ffmpeg tmpdir s { env with rmtreeOk := true }).2.outcome =
      (run_ffmpeg tmpdir s { env with rmtreeOk := false }).2.outcome := by
  cases hst : stage tmpdir s.images with
  | none => simp [run_ffmpeg, hst]
  | some p =>
      obtain ⟨copies, pat⟩ := p
      by_cases hc : env.copyOk = false <;> by_cases hl : env.launchOk = false <;>
        simp [run_ffmpeg, hst, hc, hl]

/-- C9: a start request with an empty image list is rejected with the
"no files" warning before `run_ffmpeg` runs, so no temporary directory is
created and no child process is launched; the state is unchanged. -/
theorem c9_empty_input (s : AppState) (tmpdir : String) (env : RunEnv)
    (h : s.images = []) :
    startAndRun s tmpdir env = (s, StartResult.warnNoFiles, none) := by
  simp [startAndRun, start_conversion, h]

/-- C9 witness: the idle state with no images. -/
theorem c9_empty_input_witness :
    startAndRun sEmpty "/t" envOk = (sEmpty, StartResult.warnNoFiles, none) :=
  c9_empty_input sEmpty "/t" envOk rfl

/-- C10: a start request whose output entry strips to the empty string is
rejected before staging: the run is never scheduled (so no temporary
directory is created and no process is launched) and the state — in
particular the image list — is unchanged. -/
theorem c10_blank_output (s : AppState) (tmpdir : String) (env : RunEnv)
    (h : pyStrip s.opts.output = "") :
    (startAndRun s tmpdir env).1 = s ∧
    (startAndRun s tmpdir env).2.2 = none ∧
    (startAndRun s tmpdir env).2.1 ≠ StartResult.scheduled := by
  by_cases himg : s.images = [] <;> simp [startAndRun, start_conversion, himg, h]

/-- C10 witness: output entry consisting of spaces only. -/
theorem c10_blank_output_witness :
    (startAndRun sBlank "/t" envOk).1 = sBlank ∧
    (startAndRun sBlank "/t" envOk).2.2 = none ∧
    (startAndRun sBlank "/t" envOk).2.1 ≠ StartResult.scheduled :=
  c10_blank_output sBlank "/t" envOk rfl

/-- C3 counterexample: the claim says building the encoder command fails
with `InvalidOption` when the quality lies outside 0–51 or the scale width
is not a positive integer, and that no child process is launched.  The
code performs no such validation: with quality 52 the run builds the full
MP4 command embedding `-crf 52` and launches it, and with the non-numeric
scale entry `abc` the run builds and launches a GIF command whose filter
chain embeds `scale=abc`. -/
theorem c3_counterexample :
    (run_ffmpeg "/t" sCrf52 envOk).2.launched =
      some ["ffmpeg", "-y", "-framerate", "25", "-i", "/t/img%04d.png", "-c:v", "libx264",
            "-crf", "52", "-pix_fmt", "yuv420p", "out.mp4"] ∧
    (run_ffmpeg "/t" sScaleAbc envOk).2.launched =
      some ["ffmpeg", "-y", "-framerate", "25", "-i", "/t/img%04d.png", "-vf",
            "scale=abc:-1:flags=lanczos,split [a][b]; [a] palettegen=stats_mode=full [p]; [b][p] paletteuse=dither=floyd_steinberg",
            "out.gif"] := by
  decide

/-- C3 amended: building the encoder command performs no validation of the
quality parameter or of the scale width — for every options record, once
staging and the launch succeed, the child process is launched with exactly
the command built from the options as given (any quality value is embedded
after `-crf`, any non-empty scale string after `scale=`); no
`InvalidOption` rejection exists. -/
theorem c3_no_option_validation (tmpdir : String) (s : AppState) (env : RunEnv)
    (himg : s.images ≠ []) (hcopy : env.copyOk = true) (hlaunch : env.launchOk = true) :
    ∃ copies pat, stage tmpdir s.images = some (copies, pat) ∧
      (run_ffmpeg tmpdir s env).2.launched = some (buildCmd s.ffmpegPath pat s.opts) := by
  cases himages : s.images with
  | nil => exact absurd himages himg
  | cons img0 rest =>
      refine ⟨_, _, stage_cons tmpdir img0 rest, ?_⟩
      simp [run_ffmpeg, himages, stage_cons, hcopy, hlaunch]

/-- C3 witness: the out-of-range quality 52 reaches the launch. -/
theorem c3_no_option_validation_witness :
    sCrf52.images ≠ [] ∧
    (∃ copies pat, stage "/t" sCrf52.images = some (copies, pat) ∧
      (run_ffmpeg "/t" sCrf52 envOk).2.launched = some (buildCmd sCrf52.ffmpegPath pat sCrf52.opts)) :=
  ⟨by decide, c3_no_option_validation "/t" sCrf52 envOk (by decide) rfl rfl⟩

/-- C4 counterexample: the claim says a list with more than 9999 entries
makes staging fail with `TooManyFrames` instead of producing staged files.
The code has no such check: a 10000-entry list is staged in full. -/
theorem c4_counterexample :
    ∃ copies pat, stage "/t" (List.replicate 10000 "a.png") = some (copies, pat) ∧
      copies.length = 10000 := by
  rw [show (10000 : Nat) = 9999 + 1 from rfl, List.replicate_succ]
  exact ⟨_, _, stage_cons _ _ _,
    by rw [stageCopies_length, List.length_cons, List.length_replicate]⟩

/-- C4 amended: staging never fails on the frame count — every list with
more than 9999 entries is staged in full (indices from 10000 on are simply
rendered with more than four digits by the `%04d`-style padding); no
`TooManyFrames` failure exists. -/
theorem c4_no_frame_limit (tmpdir : String) (images : List String)
    (h : 9999 < images.length) :
    ∃ copies pat, stage tmpdir images = some (copies, pat) ∧
      copies.length = images.length := by
  cases images with
  | nil => simp at h
  | cons img0 rest => exact ⟨_, _, stage_cons _ _ _, stageCopies_length _ _ _ _⟩

/-- C4 witness: the 10000-entry list is over the claimed capacity and is
staged in full. -/
theorem c4_no_frame_limit_witness :
    9999 < (List.replicate 10000 "a.png").length ∧
    (∃ copies pat, stage "/tmp/w" (List.replicate 10000 "a.png") = some (copies, pat) ∧
      copies.length = (List.replicate 10000 "a.png").length) :=
  ⟨by rw [List.length_replicate]; omega,
   c4_no_frame_limit "/tmp/w" (List.replicate 10000 "a.png") (by rw [List.length_replicate]; omega)⟩

/-- C5 counterexample: the claim says a cancelled run's terminal outcome is
`Cancelled` and never `Completed` once the process exits.  The code has no
cancelled outcome at all: the report depends only on the exit code, so a
run on which cancel was invoked (`terminate()` racing with natural
completion, or the child handling the signal and exiting cleanly) that
observes exit code 0 is reported as a success. -/
theorem c5_counterexample :
    envCancelExit0.cancelRequested = true ∧
    (run_ffmpeg "/t" sRunning envCancelExit0).2.outcome = RunOutcome.success := by
  decide

/-- C5 amended: cancelling delegates to `terminate()` (requested exactly
when a process exists and is still running), after which the run's
reported outcome is determined solely by the exit code — 0 is reported as
success even after a cancel request, any other code as the generic
encoder-failure report; there is no distinct cancelled outcome.  Workspace
cleanup is still attempted in every case. -/
theorem c5_cancel_outcome (tmpdir : String) (s : AppState) (env : RunEnv)
    (himg : s.images ≠ []) (hcopy : env.copyOk = true) (hlaunch : env.launchOk = true) :
    (run_ffmpeg tmpdir s env).2.outcome =
      (if env.exitCode = 0 then RunOutcome.success else RunOutcome.ffmpegError env.exitCode) ∧
    (run_ffmpeg tmpdir s env).2.rmtreeAttempted = true ∧
    (cancel_conversion s true true).2 = true := by
  cases himages : s.images with
  | nil => exact absurd himages himg
  | cons img0 rest =>
      refine ⟨?_, ?_, rfl⟩ <;> simp [run_ffmpeg, himages, stage_cons, hcopy, hlaunch]

/-- C5 witness: a cancelled run with exit code 0 (environment
`envCancelExit0`) is still governed by the exit code alone. -/
theorem c5_cancel_outcome_witness :
    sRunning.images ≠ [] ∧
    ((run_ffmpeg "/t" sRunning envCancelExit0).2.outcome =
      (if envCancelExit0.exitCode = 0 then RunOutcome.success
       else RunOutcome.ffmpegError envCancelExit0.exitCode) ∧
    (run_ffmpeg "/t" sRunning envCancelExit0).2.rmtreeAttempted = true ∧
    (cancel_conversion sRunning true true).2 = true) :=
  ⟨by decide, c5_cancel_outcome "/t" sRunning envCancelExit0 (by decide) rfl rfl⟩

/-- C6 counterexample: the claim says a start request issued during an
in-flight run fails with `AlreadyRunning`.  In the code the guard is the
disabled Start button: a click on it invokes nothing, so the request
produces no failure result at all (there is no `AlreadyRunning` error) —
it is silently ignored, the state (and hence the in-flight run) untouched. -/
theorem c6_counterexample :
    (clickStart sRunning).2 = none ∧ (clickStart sRunning).1 = sRunning := by
  decide

/-- C6 amended: while a run is in flight the Start button is disabled, so
a start request is ignored without any reported error: no new run begins
and the in-flight run's state, staged files and child process are left
undisturbed. -/
theorem c6_start_ignored_while_running (s : AppState) (h : s.startEnabled = false) :
    clickStart s = (s, none) := by
  simp [clickStart, h]

/-- C6 witness: a click during the staging phase of an in-flight run. -/
theorem c6_start_ignored_while_running_witness :
    clickStart sStaging = (sStaging, none) :=
  c6_start_ignored_while_running sStaging rfl

end ImgSeq
